import Mathlib

/-!
Verification of the fileflow storage layer.

The Python sources are shallowly embedded: Python `str` is `List Char`,
`datetime.datetime` run dates are `PyDate` records, the local filesystem and
the S3 bucket are association lists from path / key strings to contents, and
fallible operations return `Except PyError`.
-/

set_option autoImplicit false

namespace Fileflow

/-- Python strings are modelled as lists of characters. -/
abbrev Str := List Char

/-- Convenience coercion from Lean string literals to the `Str` model. -/
def str (s : String) : Str := s.data

/-! ## Decimal formatting: `strftime("%Y-%m-%d")` -/

/-- The decimal digit character for `n < 10`. -/
def digitChar : Nat → Char
  | 0 => '0'
  | 1 => '1'
  | 2 => '2'
  | 3 => '3'
  | 4 => '4'
  | 5 => '5'
  | 6 => '6'
  | 7 => '7'
  | 8 => '8'
  | _ => '9'

/-- Fuel-driven decimal printer (most significant digit first). -/
def natDecimalAux : Nat → Nat → Str
  | 0, _ => []
  | fuel + 1, n =>
    if n < 10 then [digitChar n]
    else natDecimalAux fuel (n / 10) ++ [digitChar (n % 10)]

/-- Decimal representation of a natural number. -/
def natDecimal (n : Nat) : Str := natDecimalAux (n + 1) n

/-- Left-pad a digit string with zeros to width `w` (as `%Y`, `%m`, `%d` do). -/
def zeroPad (w : Nat) (l : Str) : Str := List.replicate (w - l.length) '0' ++ l

/-- A Python `datetime` as far as this code observes it: `strftime("%Y-%m-%d")`
only looks at the calendar date. -/
structure PyDate where
  year : Nat
  month : Nat
  day : Nat
deriving DecidableEq, Repr

/-- `StorageDriver.execution_date_string`: `execution_date.strftime("%Y-%m-%d")`. -/
def execution_date_string (d : PyDate) : Str :=
  zeroPad 4 (natDecimal d.year) ++ '-' :: (zeroPad 2 (natDecimal d.month) ++ '-' :: zeroPad 2 (natDecimal d.day))

/-! ## posixpath.join -/

/-- `b.startswith('/')`. -/
def startsWithSlash : Str → Bool
  | [] => false
  | c :: _ => c == '/'

/-- `path.endswith('/')`: the last character, when there is one, is `'/'`. -/
def endsWithSlash (l : Str) : Bool := startsWithSlash l.reverse

/-- Whether a string contains a path separator. -/
def containsSlash : Str → Bool
  | [] => false
  | c :: cs => c == '/' || containsSlash cs

/-- One step of `os.path.join` (posix): an absolute second component replaces
the path so far; otherwise a separator is inserted unless the path so far is
empty or already ends with one. -/
def posixJoin2 (path b : Str) : Str :=
  if startsWithSlash b then b
  else if path.isEmpty || endsWithSlash path then path ++ b
  else path ++ '/' :: b

/-! ## Association-list stores -/

/-- Lookup in an association list keyed by strings. -/
def lookupStr {α : Type} : List (Str × α) → Str → Option α
  | [], _ => none
  | (p, v) :: rest, q => if p = q then some v else lookupStr rest q

/-- Overwrite-or-insert in an association list keyed by strings. -/
def setStr {α : Type} : List (Str × α) → Str → α → List (Str × α)
  | [], q, v => [(q, v)]
  | (p, w) :: rest, q, v => if p = q then (q, v) :: rest else (p, w) :: setStr rest q v

/-- `leadsWith p l` holds when `p` is an initial segment of `l`
(Python `l.startswith(p)` / boto key-prefix matching). -/
def leadsWith : Str → Str → Bool
  | [], _ => true
  | _ :: _, [] => false
  | a :: as, b :: bs => a == b && leadsWith as bs

/-! ## Errors and streams -/

/-- The error values this layer can surface. -/
inductive PyError where
  /-- An `IOError` from `codecs.open` on a missing local file. -/
  | io : Str → PyError
  /-- `fileflow.storage_drivers.StorageDriverError`. -/
  | storageDriver : Str → PyError
  /-- A Python `KeyError` from a failed dict lookup. -/
  | keyError : Str → PyError
  /-- `fileflow.errors.FileflowError`. -/
  | fileflowError : Str → PyError
deriving DecidableEq, Repr

/-- A readable byte stream: backing data plus a cursor. `read()` with no size
argument returns everything from the cursor on and leaves the cursor at the
end of the data. -/
structure PyStream where
  data : Str
  pos : Nat
deriving DecidableEq, Repr

/-- `stream.read()`: the remaining data, and the stream with its cursor moved
to the end. -/
def PyStream.readAll (s : PyStream) : Str × PyStream :=
  (s.data.drop s.pos, { s with pos := s.data.length })

/-- A stream is consumed when its cursor sits at the end of its data. -/
def PyStream.consumed (s : PyStream) : Prop := s.pos = s.data.length

/-! ## FileStorageDriver

The local filesystem is an association list from absolute path strings to file
contents; directories are implicit (`check_or_create_dir` always succeeds in
this model). -/

abbrev FileSystem := List (Str × Str)

/-- `FileStorageDriver`: holds the configured storage base path
(called `prefix` in the source; renamed because that word is a Lean keyword). -/
structure FileStorageDriver where
  pfx : Str
deriving DecidableEq, Repr

/-- `FileStorageDriver.get_filename`:
`os.path.join(self.prefix, dag_id, task_id, self.execution_date_string(execution_date))`. -/
def FileStorageDriver.get_filename (d : FileStorageDriver) (dag_id task_id : Str) (execution_date : PyDate) : Str :=
  posixJoin2 (posixJoin2 (posixJoin2 d.pfx dag_id) task_id) (execution_date_string execution_date)

/-- `FileStorageDriver.get_path`: `os.path.join(self.prefix, dag_id, task_id)`. -/
def FileStorageDriver.get_path (d : FileStorageDriver) (dag_id task_id : Str) : Str :=
  posixJoin2 (posixJoin2 d.pfx dag_id) task_id

/-- `FileStorageDriver.read`: opens the file at `get_filename` and returns its
contents; `codecs.open` raises an `IOError` naming the file when it is absent. -/
def FileStorageDriver.read (d : FileStorageDriver) (fs : FileSystem) (dag_id task_id : Str) (execution_date : PyDate) : Except PyError Str :=
  let filename := d.get_filename dag_id task_id execution_date
  match lookupStr fs filename with
  | some data => .ok data
  | none => .error (.io filename)

/-- `FileStorageDriver.write`: ensures the parent directory exists (implicit
here) and overwrites the file at `get_filename` with `data`. -/
def FileStorageDriver.write (d : FileStorageDriver) (fs : FileSystem) (dag_id task_id : Str) (execution_date : PyDate) (data : Str) : FileSystem :=
  setStr fs (d.get_filename dag_id task_id execution_date) data

/-- `FileStorageDriver.write_from_stream`:
`self.write(dag_id, task_id, execution_date, data=stream.read())`.
Returns the updated filesystem and the stream as the call leaves it. -/
def FileStorageDriver.write_from_stream (d : FileStorageDriver) (fs : FileSystem) (dag_id task_id : Str) (execution_date : PyDate) (stream : PyStream) : FileSystem × PyStream :=
  let r := stream.readAll
  (d.write fs dag_id task_id execution_date r.1, r.2)

/-- The single `os.walk` step used by `list_filenames_in_path`: a filesystem
entry is listed exactly when its path is `path ++ "/" ++ name` for a
separator-free `name` (a file directly inside the directory `path`). -/
def immediateChild (path p : Str) : Option Str :=
  if leadsWith (path ++ ['/']) p then
    if containsSlash (p.drop (path.length + 1)) then none
    else some (p.drop (path.length + 1))
  else none

/-- `FileStorageDriver.list_filenames_in_path`: the first `os.walk` tuple's
`filenames` — the names of the files directly inside `path`; an absent
directory yields no tuples at all, hence the empty list. -/
def FileStorageDriver.list_filenames_in_path (fs : FileSystem) (path : Str) : List Str :=
  fs.filterMap (fun e => immediateChild path e.1)

/-! ## S3StorageDriver

The bucket is an association list from key names to stored objects. -/

/-- An S3 object as this code manipulates it: contents, the advisory
`Content-Type` metadata, and the access policy. -/
structure S3Object where
  contents : Str
  contentType : Option Str
  acl : Option Str
deriving DecidableEq, Repr

/-- The state of the configured bucket. -/
abbrev S3Bucket := List (Str × S3Object)

/-- `S3StorageDriver`: credentials and the (environment-resolved) bucket name. -/
structure S3StorageDriver where
  access_key_id : Str
  secret_access_key : Str
  bucket_name : Str
deriving DecidableEq, Repr

/-- `S3StorageDriver.get_key_name`: `'{dag_id}/{task_id}/{date}'` with the
formatted execution date. -/
def S3StorageDriver.get_key_name (dag_id task_id : Str) (execution_date : PyDate) : Str :=
  dag_id ++ '/' :: (task_id ++ '/' :: execution_date_string execution_date)

/-- `S3StorageDriver.get_filename`: `'s3://{bucket_name}/{key_name}'`. -/
def S3StorageDriver.get_filename (d : S3StorageDriver) (dag_id task_id : Str) (execution_date : PyDate) : Str :=
  str "s3://" ++ d.bucket_name ++ '/' :: S3StorageDriver.get_key_name dag_id task_id execution_date

/-- `S3StorageDriver.get_path`: `'s3://{bucket_name}/{dag_id}/{task_id}'`. -/
def S3StorageDriver.get_path (d : S3StorageDriver) (dag_id task_id : Str) : Str :=
  str "s3://" ++ d.bucket_name ++ '/' :: (dag_id ++ '/' :: task_id)

/-- The message of the `StorageDriverError` raised when a key is absent:
`'S3 key named {key_name} in bucket {bucket_name} does not exist.'`. -/
def missingKeyMessage (key_name bucket_name : Str) : Str :=
  str "S3 key named " ++ key_name ++ str " in bucket " ++ bucket_name ++ str " does not exist."

/-- `S3StorageDriver.read`: fetches the key; when `bucket.get_key` yields no
key, raises `StorageDriverError` with a message naming key and bucket. -/
def S3StorageDriver.read (d : S3StorageDriver) (bucket : S3Bucket) (dag_id task_id : Str) (execution_date : PyDate) : Except PyError Str :=
  let key_name := S3StorageDriver.get_key_name dag_id task_id execution_date
  match lookupStr bucket key_name with
  | some key => .ok key.contents
  | none => .error (.storageDriver (missingKeyMessage key_name d.bucket_name))

/-- `S3StorageDriver.get_or_create_key`: the stored object at `key_name`, or a
fresh empty key when none exists. -/
def S3StorageDriver.get_or_create_key (bucket : S3Bucket) (key_name : Str) : S3Object :=
  match lookupStr bucket key_name with
  | some key => key
  | none => { contents := [], contentType := none, acl := none }

/-- `S3StorageDriver.write`: get-or-create the key, set `Content-Type`
metadata when `content_type` is not `None`, store the payload, set a private
ACL. -/
def S3StorageDriver.write (_d : S3StorageDriver) (bucket : S3Bucket) (dag_id task_id : Str) (execution_date : PyDate) (data : Str) (content_type : Option Str) : S3Bucket :=
  let key_name := S3StorageDriver.get_key_name dag_id task_id execution_date
  let key := S3StorageDriver.get_or_create_key bucket key_name
  let key := match content_type with
    | some ct => { key with contentType := some ct }
    | none => key
  let key := { key with contents := data, acl := some (str "private") }
  setStr bucket key_name key

/-- `S3StorageDriver.write_from_stream`: `str = stream.read()` then
`self.write(dag_id, task_id, execution_date, str, content_type)`.
Returns the updated bucket and the stream as the call leaves it. -/
def S3StorageDriver.write_from_stream (d : S3StorageDriver) (bucket : S3Bucket) (dag_id task_id : Str) (execution_date : PyDate) (stream : PyStream) (content_type : Option Str) : S3Bucket × PyStream :=
  let r := stream.readAll
  (d.write bucket dag_id task_id execution_date r.1 content_type, r.2)

/-- Python `s.rstrip('/')`: drop every trailing separator. -/
def rstripSlashes (l : Str) : Str :=
  (l.reverse.dropWhile (fun c => c == '/')).reverse

/-- The key prefix `list_filenames_in_path` derives from a full URL path:
strip `'s3://' + bucket_name + '/'` by length, then normalize to exactly one
trailing separator. -/
def S3StorageDriver.listKeyPfx (d : S3StorageDriver) (path : Str) : Str :=
  rstripSlashes (path.drop (str "s3://" ++ d.bucket_name ++ ['/']).length) ++ ['/']

/-- `S3StorageDriver.list_filenames_in_path`: lists every key of the bucket
under the derived prefix (`bucket.list(prefix=...)` is recursive) and returns
each key name with the prefix cut off. -/
def S3StorageDriver.list_filenames_in_path (d : S3StorageDriver) (bucket : S3Bucket) (path : Str) : List Str :=
  let p := d.listKeyPfx path
  (bucket.filter (fun k => leadsWith p k.1)).map (fun k => k.1.drop p.length)

/-! ## Backend factory -/

/-- The two storage drivers `get_storage_driver` can return. -/
inductive Driver where
  | file : FileStorageDriver → Driver
  | s3 : S3StorageDriver → Driver
deriving DecidableEq, Repr

/-- Dispatch `get_filename` over the constructed driver. -/
def Driver.get_filename : Driver → Str → Str → PyDate → Str
  | .file d, dag_id, task_id, ed => d.get_filename dag_id task_id ed
  | .s3 d, dag_id, task_id, ed => d.get_filename dag_id task_id ed

/-- `get_storage_driver`, after its configuration-fallback preamble (each
`None` argument is first replaced by the corresponding `configuration.get`
value; the arguments here are the resolved settings). `'file'` yields a
`FileStorageDriver` on the storage prefix; `'s3'` appends a non-production
environment name to the bucket, rejecting unknown environments; any other
storage type is an error. -/
def get_storage_driver (storage_type storage_pfx environment aws_access_key_id aws_secret_access_key aws_bucket_name : Str) : Except PyError Driver :=
  if storage_type = str "file" then
    .ok (.file { pfx := storage_pfx })
  else if storage_type = str "s3" then
    if environment = str "qa" ∨ environment = str "development" ∨ environment = str "test" then
      .ok (.s3 { access_key_id := aws_access_key_id, secret_access_key := aws_secret_access_key, bucket_name := aws_bucket_name ++ environment })
    else if environment = str "production" then
      .ok (.s3 { access_key_id := aws_access_key_id, secret_access_key := aws_secret_access_key, bucket_name := aws_bucket_name })
    else
      .error (.fileflowError (str "ENVIRONMENT setting is net set correctly"))
  else
    .error (.fileflowError (str "Storage driver type " ++ storage_type ++ str " does not exist."))

/-! ## fileflow.configuration -/

/-- The airflow configuration: a map from (section, key) pairs to values. -/
abbrev AirflowConfig := List ((Str × Str) × Str)

/-- `airflow_configuration.has_option(section, key)`. -/
def hasOption (cfg : AirflowConfig) (sec key : Str) : Bool :=
  (cfg.lookup (sec, key)).isSome

/-- `airflow_configuration.set(section, key, value)`. -/
def setOption (cfg : AirflowConfig) (sec key value : Str) : AirflowConfig :=
  match cfg with
  | [] => [((sec, key), value)]
  | e :: rest =>
    if e.1 = (sec, key) then ((sec, key), value) :: rest
    else e :: setOption rest sec key value

/-- `configuration.get(section, key)` — `none` models the `NoOptionError`
the underlying ConfigParser raises for an absent key. -/
def confGet (cfg : AirflowConfig) (sec key : Str) : Option Str :=
  cfg.lookup (sec, key)

/-- Python truthiness of `os.environ.get(var, False)`: an unset variable is
`False`, and an empty string is falsy too. -/
def envTruthy : Option Str → Bool
  | none => false
  | some v => !v.isEmpty

/-- Set a fileflow option to `value` only when it is not already present. -/
def setDefault (cfg : AirflowConfig) (key value : Str) : AirflowConfig :=
  if hasOption cfg (str "fileflow") key then cfg else setOption cfg (str "fileflow") key value

/-- The module-level initialization of `fileflow.configuration`, applied to an
initial airflow configuration. `env_access` / `env_secret` are the values of
the `AIRFLOW__FILEFLOW__AWS_ACCESS_KEY_ID` / `AIRFLOW__FILEFLOW__AWS_SECRET_ACCESS_KEY`
environment variables; `boto_access` / `boto_secret` are the boto
`Credentials` fallbacks. Note the source checks `has_option` on
`aws_secret_access_key` but then stores under the misspelled key
`aws_secret_acccess_key`, faithfully reproduced here. -/
def configuration_init (cfg0 : AirflowConfig) (env_access env_secret : Option Str) (boto_access boto_secret : Str) : AirflowConfig :=
  let cfg := setDefault cfg0 (str "environment") (str "production")
  let cfg := setDefault cfg (str "storage_prefix") (str "storage")
  let cfg := setDefault cfg (str "storage_type") (str "file")
  let cfg := setDefault cfg (str "aws_bucket_name") (str "mybeautifulbucket")
  let cfg :=
    if hasOption cfg (str "fileflow") (str "aws_access_key_id") then cfg
    else if envTruthy env_access then
      setOption cfg (str "fileflow") (str "aws_access_key_id") (env_access.getD [])
    else
      setOption cfg (str "fileflow") (str "aws_access_key_id") boto_access
  let cfg :=
    if hasOption cfg (str "fileflow") (str "aws_secret_access_key") then cfg
    else if envTruthy env_secret then
      setOption cfg (str "fileflow") (str "aws_secret_acccess_key") (env_secret.getD [])
    else
      setOption cfg (str "fileflow") (str "aws_secret_acccess_key") boto_secret
  cfg

/-! ## TaskRunner and DiveOperator

Backend construction is observable: the initializers and the storage property
return, besides their result, how many times they invoked
`get_storage_driver()`. `configuredDriver` stands for the driver that call
would build from the ambient configuration. -/

/-- The airflow task instance as the task runner observes it. -/
structure TaskInstance where
  dag_id : Str
  task_id : Str
deriving DecidableEq, Repr

/-- `TaskRunner`: dependency map, task identity, run date, and the storage
driver assigned in `__init__`. -/
structure TaskRunner where
  data_dependencies : List (Str × Str)
  task_instance : TaskInstance
  date : PyDate
  storage : Driver
deriving DecidableEq, Repr

/-- `TaskRunner.__init__`: pops `data_dependencies` from the context, stores
the task instance and execution date, and immediately assigns
`self.storage = get_storage_driver()` — one driver construction, counted in
the second component. -/
def TaskRunner.init (data_dependencies : List (Str × Str)) (ti : TaskInstance) (execution_date : PyDate) (configuredDriver : Driver) : TaskRunner × Nat :=
  ({ data_dependencies := data_dependencies, task_instance := ti, date := execution_date, storage := configuredDriver }, 1)

/-- `TaskRunner.get_input_filename`: defaults `dag_id` to the current DAG,
looks the dependency name up in `self.data_dependencies` (a missing name
raises `KeyError`), then delegates to `self.storage.get_filename` with the
mapped task id and this task's date. -/
def TaskRunner.get_input_filename (tr : TaskRunner) (data_dependency : Str) (dag_id : Option Str) : Except PyError Str :=
  let dag := match dag_id with
    | none => tr.task_instance.dag_id
    | some d => d
  match lookupStr tr.data_dependencies data_dependency with
  | none => .error (.keyError data_dependency)
  | some task_id => .ok (tr.storage.get_filename dag task_id tr.date)

/-- `TaskRunner.get_output_filename`: `self.storage.get_filename` on this
task's own identity. -/
def TaskRunner.get_output_filename (tr : TaskRunner) : Str :=
  tr.storage.get_filename tr.task_instance.dag_id tr.task_instance.task_id tr.date

/-- `DiveOperator`: dependency map plus the private lazily-filled storage
slot. -/
structure DiveOperator where
  data_dependencies : List (Str × Str)
  _storage : Option Driver
deriving DecidableEq, Repr

/-- `DiveOperator.__init__`: pops `data_dependencies` and sets
`self._storage = None`; no driver construction happens (count 0). -/
def DiveOperator.init (data_dependencies : List (Str × Str)) : DiveOperator × Nat :=
  ({ data_dependencies := data_dependencies, _storage := none }, 0)

/-- The `DiveOperator.storage` property getter: on first access constructs
the driver via `get_storage_driver()` and caches it (count 1); afterwards
returns the cached driver (count 0). -/
def DiveOperator.storageGet (op : DiveOperator) (configuredDriver : Driver) : Driver × DiveOperator × Nat :=
  match op._storage with
  | some d => (d, op, 0)
  | none => (configuredDriver, { op with _storage := some configuredDriver }, 1)

/-! ## Helper lemmas: decimal formatting -/

theorem digitChar_toNat {n : Nat} (h : n < 10) : (digitChar n).toNat = 48 + n := by
  interval_cases n <;> rfl

theorem mem_natDecimalAux_digit :
    ∀ (fuel n : Nat), n < fuel → ∀ c ∈ natDecimalAux fuel n, 48 ≤ c.toNat ∧ c.toNat ≤ 57 := by
  intro fuel
  induction fuel with
  | zero => intro n h; omega
  | succ f ih =>
    intro n h c hc
    by_cases h10 : n < 10
    · simp only [natDecimalAux, if_pos h10, List.mem_singleton] at hc
      subst hc
      rw [digitChar_toNat h10]
      omega
    · simp only [natDecimalAux, if_neg h10, List.mem_append, List.mem_singleton] at hc
      rcases hc with hc | hc
      · exact ih (n / 10) (by omega) c hc
      · subst hc
        rw [digitChar_toNat (Nat.mod_lt _ (by omega))]
        omega

theorem natDecimalAux_ne_nil :
    ∀ (fuel n : Nat), n < fuel → natDecimalAux fuel n ≠ [] := by
  intro fuel
  cases fuel with
  | zero => intro n h; omega
  | succ f =>
    intro n _ h
    by_cases h10 : n < 10
    · simp [natDecimalAux, if_pos h10] at h
    · simp [natDecimalAux, if_neg h10] at h

/-- The number a digit string denotes; inverts the printer. -/
def decValue (l : Str) : Nat := l.foldl (fun a c => 10 * a + (c.toNat - 48)) 0

theorem foldl_natDecimalAux :
    ∀ (fuel n : Nat), n < fuel → ∀ acc : Nat,
      List.foldl (fun a c => 10 * a + (c.toNat - 48)) acc (natDecimalAux fuel n)
        = acc * 10 ^ (natDecimalAux fuel n).length + n := by
  intro fuel
  induction fuel with
  | zero => intro n h; omega
  | succ f ih =>
    intro n h acc
    by_cases h10 : n < 10
    · simp only [natDecimalAux, if_pos h10, List.foldl_cons, List.foldl_nil, List.length_singleton]
      rw [digitChar_toNat h10]
      ring_nf
      omega
    · simp only [natDecimalAux, if_neg h10, List.foldl_append, List.foldl_cons, List.foldl_nil,
        List.length_append, List.length_singleton]
      rw [ih (n / 10) (by omega) acc]
      rw [digitChar_toNat (Nat.mod_lt _ (by omega))]
      have hdm : 10 * (n / 10) + (48 + n % 10 - 48) = n := by omega
      calc 10 * (acc * 10 ^ (natDecimalAux f (n / 10)).length + n / 10) + (48 + n % 10 - 48)
          = acc * (10 ^ (natDecimalAux f (n / 10)).length * 10) + (10 * (n / 10) + (48 + n % 10 - 48)) := by
            ring
        _ = acc * 10 ^ ((natDecimalAux f (n / 10)).length + 1) + n := by rw [hdm, pow_succ]

theorem decValue_natDecimal (n : Nat) : decValue (natDecimal n) = n := by
  unfold decValue natDecimal
  rw [foldl_natDecimalAux (n + 1) n (Nat.lt_succ_self n)]
  simp

theorem foldl_replicate_zero (k : Nat) :
    List.foldl (fun a c => 10 * a + (c.toNat - 48)) 0 (List.replicate k '0') = 0 := by
  induction k with
  | zero => rfl
  | succ m ih =>
    rw [List.replicate_succ, List.foldl_cons]
    simpa using ih

theorem decValue_zeroPad (w : Nat) (l : Str) : decValue (zeroPad w l) = decValue l := by
  unfold decValue zeroPad
  rw [List.foldl_append, foldl_replicate_zero]

theorem zeroPad_natDecimal_inj {w a b : Nat}
    (h : zeroPad w (natDecimal a) = zeroPad w (natDecimal b)) : a = b := by
  have h2 := congrArg decValue h
  rwa [decValue_zeroPad, decValue_zeroPad, decValue_natDecimal, decValue_natDecimal] at h2

theorem mem_zeroPad_digit {w n : Nat} {c : Char} (hc : c ∈ zeroPad w (natDecimal n)) :
    48 ≤ c.toNat ∧ c.toNat ≤ 57 := by
  unfold zeroPad at hc
  rw [List.mem_append] at hc
  rcases hc with hc | hc
  · rw [List.mem_replicate] at hc
    rw [hc.2]
    exact ⟨le_refl 48, by decide⟩
  · exact mem_natDecimalAux_digit (n + 1) n (Nat.lt_succ_self n) c hc

theorem zeroPad_natDecimal_ne_nil (w n : Nat) : zeroPad w (natDecimal n) ≠ [] := by
  unfold zeroPad
  intro h
  rcases List.append_eq_nil.mp h with ⟨-, h2⟩
  exact natDecimalAux_ne_nil (n + 1) n (Nat.lt_succ_self n) h2

theorem dash_not_mem_pad {w n : Nat} : '-' ∉ zeroPad w (natDecimal n) := by
  intro h
  have hb := mem_zeroPad_digit h
  have h45 : ('-' : Char).toNat = 45 := rfl
  omega

/-! ## Helper lemmas: the date string -/

theorem eds_chars {d : PyDate} {c : Char} (hc : c ∈ execution_date_string d) :
    (48 ≤ c.toNat ∧ c.toNat ≤ 57) ∨ c = '-' := by
  unfold execution_date_string at hc
  rw [List.mem_append, List.mem_cons] at hc
  rcases hc with hc | hc | hc
  · exact .inl (mem_zeroPad_digit hc)
  · exact .inr hc
  · rw [List.mem_append, List.mem_cons] at hc
    rcases hc with hc | hc | hc
    · exact .inl (mem_zeroPad_digit hc)
    · exact .inr hc
    · exact .inl (mem_zeroPad_digit hc)

theorem slash_not_mem_eds (d : PyDate) : '/' ∉ execution_date_string d := by
  intro h
  rcases eds_chars h with ⟨h1, h2⟩ | h3
  · have h47 : ('/' : Char).toNat = 47 := rfl
    omega
  · exact absurd h3 (by decide)

theorem startsWithSlash_eds (d : PyDate) : startsWithSlash (execution_date_string d) = false := by
  cases h : execution_date_string d with
  | nil => rfl
  | cons c cs =>
    have hc : c ∈ execution_date_string d := by
      rw [h]; exact List.mem_cons_self c cs
    simp only [startsWithSlash]
    rw [beq_eq_false_iff_ne]
    intro hcc
    exact slash_not_mem_eds d (hcc ▸ hc)

/-! ## Helper lemmas: separator splitting -/

theorem sepInj {sep : Char} :
    ∀ (a a' b b' : Str), sep ∉ a → sep ∉ a' → a ++ sep :: b = a' ++ sep :: b' →
      a = a' ∧ b = b' := by
  intro a
  induction a with
  | nil =>
    intro a' b b' _ ha' h
    cases a' with
    | nil => simpa using h
    | cons y ys =>
      rw [List.nil_append, List.cons_append] at h
      obtain ⟨h1, -⟩ := List.cons.inj h
      exact absurd (h1 ▸ List.mem_cons_self y ys) ha'
  | cons x xs ih =>
    intro a' b b' ha ha' h
    cases a' with
    | nil =>
      rw [List.nil_append, List.cons_append] at h
      obtain ⟨h1, -⟩ := List.cons.inj h
      exact absurd (h1 ▸ List.mem_cons_self x xs) (h1 ▸ ha)
    | cons y ys =>
      rw [List.cons_append, List.cons_append] at h
      obtain ⟨h1, h2⟩ := List.cons.inj h
      have hxs : sep ∉ xs := fun hm => ha (List.mem_cons_of_mem x hm)
      have hys : sep ∉ ys := fun hm => ha' (List.mem_cons_of_mem y hm)
      obtain ⟨h3, h4⟩ := ih ys b b' hxs hys h2
      exact ⟨by rw [h1, h3], h4⟩

theorem eds_inj {d d' : PyDate} (h : execution_date_string d = execution_date_string d') :
    d = d' := by
  unfold execution_date_string at h
  obtain ⟨h1, h2⟩ := sepInj _ _ _ _ dash_not_mem_pad dash_not_mem_pad h
  obtain ⟨h3, h4⟩ := sepInj _ _ _ _ dash_not_mem_pad dash_not_mem_pad h2
  obtain ⟨y, m, dy⟩ := d
  obtain ⟨y', m', dy'⟩ := d'
  simp only at h1 h3 h4
  rw [zeroPad_natDecimal_inj h1, zeroPad_natDecimal_inj h3, zeroPad_natDecimal_inj h4]

/-! ## Helper lemmas: path joining -/

theorem startsWithSlash_eq_false {l : Str} (h : '/' ∉ l) : startsWithSlash l = false := by
  cases l with
  | nil => rfl
  | cons c cs =>
    simp only [startsWithSlash]
    rw [beq_eq_false_iff_ne]
    intro hc
    exact h (hc ▸ List.mem_cons_self c cs)

theorem endsWithSlash_append_cons {x l : Str} (hl : l ≠ []) (h : '/' ∉ l) :
    endsWithSlash (x ++ '/' :: l) = false := by
  unfold endsWithSlash
  cases hr : l.reverse with
  | nil => exact absurd (by simpa using congrArg List.reverse hr) hl
  | cons c cs =>
    have hrev : (x ++ '/' :: l).reverse = c :: (cs ++ '/' :: x.reverse) := by
      rw [List.reverse_append, List.reverse_cons, hr]
      simp
    rw [hrev]
    have hc : c ∈ l := by
      rw [← List.mem_reverse, hr]
      exact List.mem_cons_self c cs
    simp only [startsWithSlash]
    rw [beq_eq_false_iff_ne]
    intro hcc
    exact h (hcc ▸ hc)

theorem posixJoin2_cons {path b : Str} (hb : startsWithSlash b = false)
    (hp : path ≠ []) (hpe : endsWithSlash path = false) :
    posixJoin2 path b = path ++ '/' :: b := by
  have hie : path.isEmpty = false := by
    cases path with
    | nil => exact absurd rfl hp
    | cons c cs => rfl
  simp [posixJoin2, hb, hpe, hie]

theorem file_get_filename_eq {pfx dag task : Str} {ed : PyDate}
    (hp : pfx ≠ []) (hpe : endsWithSlash pfx = false)
    (hd : dag ≠ []) (hds : '/' ∉ dag) (ht : task ≠ []) (hts : '/' ∉ task) :
    FileStorageDriver.get_filename ⟨pfx⟩ dag task ed
      = pfx ++ '/' :: (dag ++ '/' :: (task ++ '/' :: execution_date_string ed)) := by
  unfold FileStorageDriver.get_filename
  rw [posixJoin2_cons (startsWithSlash_eq_false hds) hp hpe]
  rw [posixJoin2_cons (startsWithSlash_eq_false hts) (by simp) (endsWithSlash_append_cons hd hds)]
  rw [posixJoin2_cons (startsWithSlash_eds ed) (by simp) (endsWithSlash_append_cons ht hts)]
  simp

/-! ## Helper lemmas: key injectivity -/

theorem get_key_name_inj {dag task dag' task' : Str} {ed ed' : PyDate}
    (hd : '/' ∉ dag) (hd' : '/' ∉ dag') (ht : '/' ∉ task) (ht' : '/' ∉ task')
    (h : S3StorageDriver.get_key_name dag task ed = S3StorageDriver.get_key_name dag' task' ed') :
    dag = dag' ∧ task = task' ∧ ed = ed' := by
  unfold S3StorageDriver.get_key_name at h
  obtain ⟨h1, h2⟩ := sepInj _ _ _ _ hd hd' h
  obtain ⟨h3, h4⟩ := sepInj _ _ _ _ ht ht' h2
  exact ⟨h1, h3, eds_inj h4⟩

theorem file_get_filename_inj {pfx dag task dag' task' : Str} {ed ed' : PyDate}
    (hp : pfx ≠ []) (hpe : endsWithSlash pfx = false)
    (hd : dag ≠ []) (hds : '/' ∉ dag) (ht : task ≠ []) (hts : '/' ∉ task)
    (hd' : dag' ≠ []) (hds' : '/' ∉ dag') (ht' : task' ≠ []) (hts' : '/' ∉ task')
    (h : FileStorageDriver.get_filename ⟨pfx⟩ dag task ed
        = FileStorageDriver.get_filename ⟨pfx⟩ dag' task' ed') :
    dag = dag' ∧ task = task' ∧ ed = ed' := by
  rw [file_get_filename_eq hp hpe hd hds ht hts,
    file_get_filename_eq hp hpe hd' hds' ht' hts'] at h
  have h2 := List.append_cancel_left h
  obtain ⟨-, h3⟩ := List.cons.inj h2
  exact get_key_name_inj hds hds' hts hts' h3

/-! ## Helper lemmas: listing -/

theorem leadsWith_append (p t : Str) : leadsWith p (p ++ t) = true := by
  induction p with
  | nil => rfl
  | cons a as ih => simp [leadsWith, ih]

theorem eq_append_drop_of_leadsWith :
    ∀ (p l : Str), leadsWith p l = true → l = p ++ l.drop p.length := by
  intro p
  induction p with
  | nil => intro l _; rfl
  | cons a as ih =>
    intro l h
    cases l with
    | nil => simp [leadsWith] at h
    | cons b bs =>
      simp only [leadsWith, Bool.and_eq_true, beq_iff_eq] at h
      obtain ⟨h1, h2⟩ := h
      subst h1
      calc a :: bs = a :: (as ++ bs.drop as.length) := by rw [← ih bs h2]
        _ = (a :: as) ++ (a :: bs).drop (a :: as).length := by simp

theorem containsSlash_eq_false_iff {l : Str} : containsSlash l = false ↔ '/' ∉ l := by
  induction l with
  | nil => simp [containsSlash]
  | cons c cs ih =>
    simp only [containsSlash, Bool.or_eq_false_iff, beq_eq_false_iff_ne, ih, List.mem_cons,
      not_or]
    constructor
    · rintro ⟨h1, h2⟩
      exact ⟨fun hc => h1 hc.symm, h2⟩
    · rintro ⟨h1, h2⟩
      exact ⟨fun hc => h1 hc.symm, h2⟩

theorem immediateChild_eq_some {path p n : Str} :
    immediateChild path p = some n ↔ p = path ++ '/' :: n ∧ '/' ∉ n := by
  constructor
  · intro h
    unfold immediateChild at h
    by_cases hl : leadsWith (path ++ ['/']) p = true
    · rw [if_pos hl] at h
      by_cases hcs : containsSlash (p.drop (path.length + 1)) = true
      · rw [if_pos hcs] at h
        exact absurd h (by simp)
      · rw [if_neg hcs] at h
        obtain rfl := Option.some.inj h
        have hdrop := eq_append_drop_of_leadsWith (path ++ ['/']) p hl
        rw [List.length_append, List.length_singleton] at hdrop
        refine ⟨by rw [hdrop]; simp, ?_⟩
        exact containsSlash_eq_false_iff.mp (Bool.not_eq_true _ ▸ hcs)
    · rw [if_neg hl] at h
      exact absurd h (by simp)
  · rintro ⟨rfl, hn⟩
    unfold immediateChild
    have hassoc : path ++ '/' :: n = (path ++ ['/']) ++ n := by simp
    have hl : leadsWith (path ++ ['/']) (path ++ '/' :: n) = true := by
      rw [hassoc]
      exact leadsWith_append _ _
    rw [if_pos hl]
    have hdrop : (path ++ '/' :: n).drop (path.length + 1) = n := by
      have hlen : (path ++ ['/']).length = path.length + 1 := by
        rw [List.length_append, List.length_singleton]
      rw [hassoc, ← hlen, List.drop_left]
    rw [hdrop, if_neg (by rw [containsSlash_eq_false_iff.symm] at hn; simp [hn])]

theorem mem_file_list_iff {fs : FileSystem} {path n : Str} :
    n ∈ FileStorageDriver.list_filenames_in_path fs path ↔
      '/' ∉ n ∧ ∃ v, (path ++ '/' :: n, v) ∈ fs := by
  unfold FileStorageDriver.list_filenames_in_path
  rw [List.mem_filterMap]
  constructor
  · rintro ⟨e, he, hc⟩
    obtain ⟨h1, h2⟩ := immediateChild_eq_some.mp hc
    refine ⟨h2, e.2, ?_⟩
    rw [← h1]
    exact he
  · rintro ⟨hn, v, hv⟩
    exact ⟨(path ++ '/' :: n, v), hv, immediateChild_eq_some.mpr ⟨rfl, hn⟩⟩

theorem mem_s3_list_iff {d : S3StorageDriver} {bucket : S3Bucket} {path r : Str} :
    r ∈ d.list_filenames_in_path bucket path ↔
      ∃ o, (d.listKeyPfx path ++ r, o) ∈ bucket := by
  unfold S3StorageDriver.list_filenames_in_path
  rw [List.mem_map]
  constructor
  · rintro ⟨e, he, hr⟩
    rw [List.mem_filter] at he
    obtain ⟨hmem, hlw⟩ := he
    refine ⟨e.2, ?_⟩
    have hsplit := eq_append_drop_of_leadsWith _ _ hlw
    rw [hr] at hsplit
    rw [← hsplit]
    exact hmem
  · rintro ⟨o, ho⟩
    refine ⟨(d.listKeyPfx path ++ r, o), ?_, ?_⟩
    · rw [List.mem_filter]
      exact ⟨ho, leadsWith_append _ _⟩
    · exact List.drop_left _ _

/-! ## Claims -/

/-- Claim C1, counterexample: the local locator is not bit-exactly
`{prefix}/{workflow_id}/{step_id}/{date}` for every prefix — `os.path.join`
inserts no separator after a prefix that already ends in `/`, so prefix
`"/data/"` yields `/data/etl/extract/2024-03-01` and not the template's
`/data//etl/extract/2024-03-01`. -/
theorem C1_counterexample :
    FileStorageDriver.get_filename ⟨str "/data/"⟩ (str "etl") (str "extract") ⟨2024, 3, 1⟩
      ≠ str "/data/" ++ '/' :: (str "etl" ++ '/' :: (str "extract" ++ '/' :: execution_date_string ⟨2024, 3, 1⟩)) := by
  decide

/-- Claim C1, amended: for a nonempty prefix with no trailing separator and
nonempty, separator-free workflow and step ids, the local backend's
`get_filename` is exactly `{prefix}/{workflow_id}/{step_id}/{date}`, and for
every bucket the object backend's `get_filename` is exactly
`s3://{bucket}/{workflow_id}/{step_id}/{date}`; in particular prefix `/data`,
workflow `etl`, step `extract`, date 2024-03-01 yields
`/data/etl/extract/2024-03-01`, and bucket `artifactsqa` yields
`s3://artifactsqa/etl/extract/2024-03-01` (see the witness). -/
theorem C1_locator_formats (pfx dag task ak sk bucket : Str) (ed : PyDate)
    (hp : pfx ≠ []) (hpe : endsWithSlash pfx = false)
    (hd : dag ≠ []) (hds : '/' ∉ dag) (ht : task ≠ []) (hts : '/' ∉ task) :
    FileStorageDriver.get_filename ⟨pfx⟩ dag task ed
      = pfx ++ '/' :: (dag ++ '/' :: (task ++ '/' :: execution_date_string ed))
  ∧ S3StorageDriver.get_filename ⟨ak, sk, bucket⟩ dag task ed
      = str "s3://" ++ bucket ++ '/' :: (dag ++ '/' :: (task ++ '/' :: execution_date_string ed)) :=
  ⟨file_get_filename_eq hp hpe hd hds ht hts, rfl⟩

/-- Claim C1, witness: the two concrete scenarios from the claim. -/
theorem C1_witness :
    FileStorageDriver.get_filename ⟨str "/data"⟩ (str "etl") (str "extract") ⟨2024, 3, 1⟩
      = str "/data/etl/extract/2024-03-01"
  ∧ S3StorageDriver.get_filename ⟨str "k", str "s", str "artifactsqa"⟩ (str "etl") (str "extract") ⟨2024, 3, 1⟩
      = str "s3://artifactsqa/etl/extract/2024-03-01" := by
  have h := C1_locator_formats (str "/data") (str "etl") (str "extract") (str "k") (str "s")
    (str "artifactsqa") ⟨2024, 3, 1⟩ (by decide) (by decide) (by decide) (by decide) (by decide)
    (by decide)
  exact ⟨h.1.trans (by decide), h.2.trans (by decide)⟩

/-- Claim C2: the factory with storage type `s3` keeps the bucket name
unchanged for environment `production`, appends the environment string
exactly for `qa`, `development` and `test`, and for any other environment
value raises `FileflowError` and constructs no backend. -/
theorem C2_env_bucket_transform (storage_pfx ak sk bucket env : Str) :
    get_storage_driver (str "s3") storage_pfx (str "production") ak sk bucket
      = .ok (.s3 ⟨ak, sk, bucket⟩)
  ∧ (env = str "qa" ∨ env = str "development" ∨ env = str "test" →
      get_storage_driver (str "s3") storage_pfx env ak sk bucket
        = .ok (.s3 ⟨ak, sk, bucket ++ env⟩))
  ∧ (env ≠ str "qa" → env ≠ str "development" → env ≠ str "test" → env ≠ str "production" →
      get_storage_driver (str "s3") storage_pfx env ak sk bucket
        = .error (.fileflowError (str "ENVIRONMENT setting is net set correctly"))) := by
  refine ⟨rfl, ?_, ?_⟩
  · rintro (rfl | rfl | rfl) <;> rfl
  · intro h1 h2 h3 h4
    have hor : ¬(env = str "qa" ∨ env = str "development" ∨ env = str "test") := by
      rintro (h | h | h)
      · exact h1 h
      · exact h2 h
      · exact h3 h
    unfold get_storage_driver
    rw [if_neg (by decide : ¬((str "s3" : Str) = str "file"))]
    rw [if_pos (rfl : (str "s3" : Str) = str "s3")]
    rw [if_neg hor, if_neg h4]

/-- Claim C2, witness: bucket `artifacts` in production, qa, and an unknown
environment `staging`. -/
theorem C2_witness :
    get_storage_driver (str "s3") (str "p") (str "production") (str "k") (str "s") (str "artifacts")
      = .ok (.s3 ⟨str "k", str "s", str "artifacts"⟩)
  ∧ get_storage_driver (str "s3") (str "p") (str "qa") (str "k") (str "s") (str "artifacts")
      = .ok (.s3 ⟨str "k", str "s", str "artifactsqa"⟩)
  ∧ get_storage_driver (str "s3") (str "p") (str "staging") (str "k") (str "s") (str "artifacts")
      = .error (.fileflowError (str "ENVIRONMENT setting is net set correctly")) := by
  have h := C2_env_bucket_transform (str "p") (str "k") (str "s") (str "artifacts") (str "qa")
  have h2 := C2_env_bucket_transform (str "p") (str "k") (str "s") (str "artifacts") (str "staging")
  exact ⟨h.1, h.2.1 (Or.inl rfl), h2.2.2 (by decide) (by decide) (by decide) (by decide)⟩

/-- Claim C3, counterexample: key derivation is not injective over all
distinct triples. A separator embedded in an id collides:
`get_key_name "a/b" "c" d = get_key_name "a" "b/c" d`; and even without
separators the local `get_filename` collides on empty ids:
`("", "x")` and `("x", "")` both map to `/p/x/2024-03-01`. -/
theorem C3_counterexample :
    S3StorageDriver.get_key_name (str "a/b") (str "c") ⟨2024, 3, 1⟩
      = S3StorageDriver.get_key_name (str "a") (str "b/c") ⟨2024, 3, 1⟩
  ∧ ¬(str "a/b" = str "a" ∧ str "c" = str "b/c")
  ∧ FileStorageDriver.get_filename ⟨str "/p"⟩ [] (str "x") ⟨2024, 3, 1⟩
      = FileStorageDriver.get_filename ⟨str "/p"⟩ (str "x") [] ⟨2024, 3, 1⟩
  ∧ ¬(([] : Str) = str "x" ∧ str "x" = ([] : Str)) := by
  decide

/-- Claim C3, amended: key derivation is deterministic (definitionally: the
embedding is a pure function, and formatting the same run date twice yields
the identical string), and it is injective over distinct triples whose
workflow and step ids contain no `/` (for the local `get_filename`,
additionally, the ids are nonempty and the prefix is nonempty without a
trailing separator). -/
theorem C3_key_derivation (dag task dag' task' pfx : Str) (ed ed' : PyDate) :
    (S3StorageDriver.get_key_name dag task ed = S3StorageDriver.get_key_name dag task ed
      ∧ execution_date_string ed = execution_date_string ed)
  ∧ ('/' ∉ dag → '/' ∉ dag' → '/' ∉ task → '/' ∉ task' →
      S3StorageDriver.get_key_name dag task ed = S3StorageDriver.get_key_name dag' task' ed' →
      dag = dag' ∧ task = task' ∧ ed = ed')
  ∧ (pfx ≠ [] → endsWithSlash pfx = false →
      dag ≠ [] → dag' ≠ [] → task ≠ [] → task' ≠ [] →
      '/' ∉ dag → '/' ∉ dag' → '/' ∉ task → '/' ∉ task' →
      FileStorageDriver.get_filename ⟨pfx⟩ dag task ed
        = FileStorageDriver.get_filename ⟨pfx⟩ dag' task' ed' →
      dag = dag' ∧ task = task' ∧ ed = ed') := by
  refine ⟨⟨rfl, rfl⟩, ?_, ?_⟩
  · intro hd hd' ht ht' h
    exact get_key_name_inj hd hd' ht ht' h
  · intro hp hpe hd hd' ht ht' hds hds' hts hts' h
    exact file_get_filename_inj hp hpe hd hds ht hts hd' hds' ht' hts' h

/-- Claim C3, witness: the injectivity conclusions at the triple
`("dag", "task", 2024-03-01)` against itself. -/
theorem C3_witness :
    (str "dag" = str "dag" ∧ str "task" = str "task" ∧ (⟨2024, 3, 1⟩ : PyDate) = ⟨2024, 3, 1⟩)
  ∧ (str "dag" = str "dag" ∧ str "task" = str "task" ∧ (⟨2024, 3, 1⟩ : PyDate) = ⟨2024, 3, 1⟩) := by
  have h := C3_key_derivation (str "dag") (str "task") (str "dag") (str "task") (str "/p")
    ⟨2024, 3, 1⟩ ⟨2024, 3, 1⟩
  exact ⟨h.2.1 (by decide) (by decide) (by decide) (by decide) rfl,
    h.2.2 (by decide) (by decide) (by decide) (by decide) (by decide) (by decide)
      (by decide) (by decide) (by decide) (by decide) rfl⟩

/-- Claim C4: reading a key that was never written (no entry in the store at
the derived key) fails and returns no value: the object backend raises a
`StorageDriverError` — a domain error, not a raw transport error — whose
message names both the derived key and the bucket, and the local backend
raises a file-not-found `IOError` naming the path. -/
theorem C4_read_missing (d : S3StorageDriver) (bucket : S3Bucket) (fd : FileStorageDriver)
    (fs : FileSystem) (dag task : Str) (ed : PyDate)
    (hb : lookupStr bucket (S3StorageDriver.get_key_name dag task ed) = none)
    (hf : lookupStr fs (fd.get_filename dag task ed) = none) :
    d.read bucket dag task ed
      = .error (.storageDriver
          (missingKeyMessage (S3StorageDriver.get_key_name dag task ed) d.bucket_name))
  ∧ fd.read fs dag task ed = .error (.io (fd.get_filename dag task ed)) := by
  constructor
  · simp only [S3StorageDriver.read, hb]
  · simp only [FileStorageDriver.read, hf]

/-- Claim C4, witness: reading from an empty bucket and an empty filesystem. -/
theorem C4_witness :
    S3StorageDriver.read ⟨str "k", str "s", str "b"⟩ [] (str "etl") (str "extract") ⟨2024, 3, 1⟩
      = .error (.storageDriver
          (missingKeyMessage (S3StorageDriver.get_key_name (str "etl") (str "extract") ⟨2024, 3, 1⟩) (str "b")))
  ∧ FileStorageDriver.read ⟨str "/data"⟩ [] (str "etl") (str "extract") ⟨2024, 3, 1⟩
      = .error (.io (FileStorageDriver.get_filename ⟨str "/data"⟩ (str "etl") (str "extract") ⟨2024, 3, 1⟩)) :=
  C4_read_missing ⟨str "k", str "s", str "b"⟩ [] ⟨str "/data"⟩ [] (str "etl") (str "extract")
    ⟨2024, 3, 1⟩ rfl rfl

/-- Claim C5: on both backends, `write_from_stream` is read-all-then-write —
the resulting store equals `write` of `stream.read()` at the same key, and the
input stream is fully consumed (its cursor ends at the end of its data). -/
theorem C5_write_from_stream_equiv (fd : FileStorageDriver) (fs : FileSystem)
    (d : S3StorageDriver) (bucket : S3Bucket) (dag task : Str) (ed : PyDate)
    (s : PyStream) (ct : Option Str) :
    (fd.write_from_stream fs dag task ed s).1 = fd.write fs dag task ed s.readAll.1
  ∧ (fd.write_from_stream fs dag task ed s).2.consumed
  ∧ (d.write_from_stream bucket dag task ed s ct).1
      = S3StorageDriver.write d bucket dag task ed s.readAll.1 ct
  ∧ (d.write_from_stream bucket dag task ed s ct).2.consumed :=
  ⟨rfl, rfl, rfl, rfl⟩

/-- Claim C6, counterexample: the object backend's `list_filenames_in_path`
is recursive, not one-level: with key `p/a/b` in the bucket, listing
`s3://b/p` returns `a/b`, which contains a separator and so is not an
immediate child name. -/
theorem C6_counterexample :
    S3StorageDriver.list_filenames_in_path ⟨str "k", str "s", str "b"⟩
      [(str "p/a/b", ⟨str "x", none, none⟩)] (str "s3://b/p") = [str "a/b"]
  ∧ '/' ∈ str "a/b" := by
  decide

/-- Claim C6, amended: the local backend's `list_filenames_in_path` returns
exactly the separator-free immediate child names of the path; the object
backend's returns exactly the remainders, after cutting the normalized key
prefix, of every key under that prefix — remainders that may contain
separators. -/
theorem C6_listing_semantics (fs : FileSystem) (d : S3StorageDriver) (bucket : S3Bucket)
    (path n r : Str) :
    (n ∈ FileStorageDriver.list_filenames_in_path fs path ↔
      '/' ∉ n ∧ ∃ v, (path ++ '/' :: n, v) ∈ fs)
  ∧ (r ∈ d.list_filenames_in_path bucket path ↔
      ∃ o, (d.listKeyPfx path ++ r, o) ∈ bucket) :=
  ⟨mem_file_list_iff, mem_s3_list_iff⟩

/-- Claim C7: the configuration module's initialization checks `has_option`
on the contract key `aws_secret_access_key` but stores the environment
variable's value under the misspelled key `aws_secret_acccess_key` — so with
the override environment variables set and no stored credentials, the secret
is not readable under the contract key while the access key id is; this
contradicts the code's own `has_option` guard and the configuration contract. -/
theorem C7_secret_key_typo :
    confGet (configuration_init [] (some (str "AKID")) (some (str "sekrit")) (str "bA") (str "bS"))
        (str "fileflow") (str "aws_secret_access_key") = none
  ∧ confGet (configuration_init [] (some (str "AKID")) (some (str "sekrit")) (str "bA") (str "bS"))
        (str "fileflow") (str "aws_secret_acccess_key") = some (str "sekrit")
  ∧ confGet (configuration_init [] (some (str "AKID")) (some (str "sekrit")) (str "bA") (str "bS"))
        (str "fileflow") (str "aws_access_key_id") = some (str "AKID") := by
  decide

/-- Claim C8, counterexample: constructing the task-side facade is not free of
backend construction — `TaskRunner.__init__` invokes `get_storage_driver()`
once, eagerly. -/
theorem C8_counterexample :
    (TaskRunner.init [] ⟨str "etl", str "extract"⟩ ⟨2024, 3, 1⟩ (.file ⟨str "storage"⟩)).2 ≠ 0 := by
  decide

/-- Claim C8, amended: the operator (`DiveOperator`) defers backend
construction — its constructor performs none, the first access of the
`storage` property constructs exactly one driver and caches it, and later
accesses construct none and return the cached driver — while `TaskRunner`
constructs its backend eagerly, performing exactly one construction at
`__init__`. -/
theorem C8_lazy_storage (deps : List (Str × Str)) (ti : TaskInstance) (ed : PyDate)
    (drv drv2 : Driver) :
    (DiveOperator.init deps).2 = 0
  ∧ (TaskRunner.init deps ti ed drv).2 = 1
  ∧ ((DiveOperator.init deps).1.storageGet drv).2.2 = 1
  ∧ ((DiveOperator.init deps).1.storageGet drv).1 = drv
  ∧ (((DiveOperator.init deps).1.storageGet drv).2.1.storageGet drv2).2.2 = 0
  ∧ (((DiveOperator.init deps).1.storageGet drv).2.1.storageGet drv2).1 = drv :=
  ⟨rfl, rfl, rfl, rfl, rfl, rfl⟩

/-- Claim C9: resolving an input locator for a dependency name absent from
the dependency map raises a `KeyError` naming it, without touching the
backend (the outcome is identical for any two storage drivers); for a present
name it returns the backend's `get_filename` at the mapped step id and this
task's own run date, defaulting the workflow id to the task's own. -/
theorem C9_input_locator (deps : List (Str × Str)) (ti : TaskInstance) (ed : PyDate)
    (s₁ s₂ : Driver) (name : Str) :
    (lookupStr deps name = none →
      TaskRunner.get_input_filename ⟨deps, ti, ed, s₁⟩ name none = .error (.keyError name)
      ∧ TaskRunner.get_input_filename ⟨deps, ti, ed, s₁⟩ name none
          = TaskRunner.get_input_filename ⟨deps, ti, ed, s₂⟩ name none)
  ∧ (∀ t, lookupStr deps name = some t →
      TaskRunner.get_input_filename ⟨deps, ti, ed, s₁⟩ name none
        = .ok (s₁.get_filename ti.dag_id t ed)
      ∧ ∀ dg, TaskRunner.get_input_filename ⟨deps, ti, ed, s₁⟩ name (some dg)
          = .ok (s₁.get_filename dg t ed)) := by
  constructor
  · intro h
    constructor <;> simp only [TaskRunner.get_input_filename, h]
  · intro t h
    constructor
    · simp only [TaskRunner.get_input_filename, h]
    · intro dg
      simp only [TaskRunner.get_input_filename, h]

/-- Claim C9, witness: the facade with dependency map `{"raw": "extract"}`
rejects `"missing"` and resolves `"raw"` through the backend. -/
theorem C9_witness :
    TaskRunner.get_input_filename
        ⟨[(str "raw", str "extract")], ⟨str "etl", str "t"⟩, ⟨2024, 3, 1⟩, .file ⟨str "/data"⟩⟩
        (str "missing") none
      = .error (.keyError (str "missing"))
  ∧ TaskRunner.get_input_filename
        ⟨[(str "raw", str "extract")], ⟨str "etl", str "t"⟩, ⟨2024, 3, 1⟩, .file ⟨str "/data"⟩⟩
        (str "raw") none
      = .ok (Driver.get_filename (.file ⟨str "/data"⟩) (str "etl") (str "extract") ⟨2024, 3, 1⟩) := by
  have h := C9_input_locator [(str "raw", str "extract")] ⟨str "etl", str "t"⟩ ⟨2024, 3, 1⟩
    (.file ⟨str "/data"⟩) (.file ⟨str "/data"⟩) (str "missing")
  have h2 := C9_input_locator [(str "raw", str "extract")] ⟨str "etl", str "t"⟩ ⟨2024, 3, 1⟩
    (.file ⟨str "/data"⟩) (.file ⟨str "/data"⟩) (str "raw")
  exact ⟨(h.1 (by decide)).1, (h2.2 (str "extract") (by decide)).1⟩

/-- Claim C10: for a path with no filesystem entry below it (the directory
does not exist), the local backend's `list_filenames_in_path` returns the
empty list rather than raising, while `read` of a never-written key raises a
file-not-found error: absence is only an error for `read`, not for listing. -/
theorem C10_list_absent_empty (fs : FileSystem) (path : Str)
    (h : ∀ e ∈ fs, leadsWith (path ++ ['/']) e.1 = false) :
    FileStorageDriver.list_filenames_in_path fs path = []
  ∧ ∀ (d : FileStorageDriver) (dag task : Str) (ed : PyDate),
      lookupStr fs (d.get_filename dag task ed) = none →
      d.read fs dag task ed = .error (.io (d.get_filename dag task ed)) := by
  constructor
  · unfold FileStorageDriver.list_filenames_in_path
    rw [List.filterMap_eq_nil_iff]
    intro e he
    unfold immediateChild
    rw [if_neg (by rw [h e he]; simp)]
  · intro d dag task ed hf
    simp only [FileStorageDriver.read, hf]

/-- Claim C10, witness: a filesystem holding one unrelated file, listed at a
directory that does not exist, and read at a never-written key. -/
theorem C10_witness :
    FileStorageDriver.list_filenames_in_path [(str "/other/etl/x/2024-03-01", str "v")]
      (str "/data/etl/extract") = []
  ∧ FileStorageDriver.read ⟨str "/data"⟩ [(str "/other/etl/x/2024-03-01", str "v")]
        (str "etl") (str "extract") ⟨2024, 3, 1⟩
      = .error (.io (FileStorageDriver.get_filename ⟨str "/data"⟩ (str "etl") (str "extract") ⟨2024, 3, 1⟩)) := by
  have h := C10_list_absent_empty [(str "/other/etl/x/2024-03-01", str "v")]
    (str "/data/etl/extract") (by decide)
  exact ⟨h.1, h.2 ⟨str "/data"⟩ (str "etl") (str "extract") ⟨2024, 3, 1⟩ (by decide)⟩

end Fileflow
